import Mathlib

/-!
Verification of the natural-language specification of the baremetal IPMI
power manager (`ironic/manager/ipmi.py`) against a shallow embedding of its
code.

The embedding covers:
* the exact-match power-status primitive `_is_power`;
* the bounded-retry polling state machine of `_power_on` / `_power_off`
  (the nested `_wait_for_power_on` / `_wait_for_power_off` callbacks driven
  by `loopingcall.FixedIntervalLoopingCall`);
* the public operations `activate_node`, `reboot_node`, `deactivate_node`;
* constructor validation in `IPMI.__init__`;
* the filesystem effects of `_make_password_file`, `_exec_ipmitool` and
  `start_console` on the temporary password file;
* `_get_console_pid` / `stop_console` and the pid-record lifecycle.

External command executions are modelled by their observable outcomes:
a status query yields `none` when the executor (`utils.execute`, which
internally retries transient failures with `attempts=3`) raises, or
`some stdout` with the captured standard output; corrective commands yield a
success flag that the code catches and ignores.
-/

set_option autoImplicit false

/-- Power states from `ironic.common.states` used by this driver.
`self.state` starts out as Python `None`, so the cached state is modelled
as `Option PState`. -/
inductive PState
  | ACTIVE
  | DELETED
  | ERROR
deriving DecidableEq, Repr

/-- Result of one run of the polling state machine.
`attempts` is the final value of `self.retries`, i.e. the number of
corrective commands issued (each non-exiting iteration does exactly
`self.retries += 1` immediately followed by one corrective
`_exec_ipmitool` call, whose failure is caught).  `iterations` counts the
invocations of the `_wait_for_power_*` callback, the final one included.
`raised` is the case where the status query's executor raised: that
exception is not caught by the callback and propagates. -/
inductive PollResult
  | ok (attempts : Nat) (iterations : Nat) (final : PState)
  | raised (attempts : Nat) (iterations : Nat)
deriving DecidableEq, Repr

/-- Number of corrective-command attempts recorded in a `PollResult`. -/
def PollResult.attempts : PollResult → Nat
  | PollResult.ok a _ _ => a
  | PollResult.raised a _ => a

/-- Number of callback invocations recorded in a `PollResult`. -/
def PollResult.iterations : PollResult → Nat
  | PollResult.ok _ j _ => j
  | PollResult.raised _ j => j

/-- Final state recorded in a `PollResult`, `none` when the run raised. -/
def PollResult.finalState? : PollResult → Option PState
  | PollResult.ok _ _ s => some s
  | PollResult.raised _ _ => none

/-- The body of `_wait_for_power_on` / `_wait_for_power_off`, iterated.

`statusIs i` is the outcome of the status query of iteration `i`
(`self._is_power(target)`): `none` when its command execution raised (the
callback does not catch that), `some b` when it returned `b`.
`corr i` is the outcome of corrective command number `i`
(`self._exec_ipmitool("power on"/"power off")`); its failure is caught by
the `try`/`except` and only logged, so it does not influence control flow.

`remaining` is a structural-recursion encoding of the source's exit test:
it stands for `CONF.ipmi_power_retry + 1 - retries`, so the source's check
`self.retries > CONF.ipmi_power_retry` holds exactly when `remaining = 0`,
and the `self.retries += 1` step decrements `remaining` by one. -/
def pollLoopAux (statusIs : Nat → Option Bool) (corr : Nat → Bool)
    (success : PState) : Nat → Nat → Nat → PollResult
  | 0, retries, iters =>
    -- here retries > CONF.ipmi_power_retry: a false status query exits ERROR
    match statusIs iters with
    | none => PollResult.raised retries (iters + 1)
    | some true => PollResult.ok retries (iters + 1) success
    | some false => PollResult.ok retries (iters + 1) PState.ERROR
  | r + 1, retries, iters =>
    -- here retries <= CONF.ipmi_power_retry: a false status query retries
    match statusIs iters with
    | none => PollResult.raised retries (iters + 1)
    | some true => PollResult.ok retries (iters + 1) success
    | some false =>
      -- self.retries += 1; self._exec_ipmitool(corrective) — failure caught
      let _caught : Bool := corr retries
      pollLoopAux statusIs corr success r (retries + 1) (iters + 1)

/-- The polling state machine with the source's counter convention:
`maxRetry` is `CONF.ipmi_power_retry`, `retries` and `iters` the current
retry counter and iteration index (both `0` at `timer.start`, since
`_power_on` / `_power_off` set `self.retries = 0` just before starting the
loop). -/
def pollLoop (statusIs : Nat → Option Bool) (corr : Nat → Bool)
    (success : PState) (maxRetry retries iters : Nat) : PollResult :=
  pollLoopAux statusIs corr success (maxRetry + 1 - retries) retries iters

/-- `IPMI._is_power` on captured stdout: exact string comparison of the
whole standard output against the canonical status line
`"Chassis Power is %s\n" % state`. -/
def is_power (stdout : String) (state : String) : Bool :=
  stdout == "Chassis Power is " ++ state ++ "\n"

/-- The status query stream seen by the polling loop: the `i`-th
`"power status"` execution either raises (`none`) or returns stdout, which
`_is_power` compares against the canonical line for `target`. -/
def statusQuery (outs : Nat → Option String) (target : String) (i : Nat) :
    Option Bool :=
  (outs i).map fun out => is_power out target

/-- Default of the `ipmi_power_retry` configuration option. -/
def ipmi_power_retry_default : Nat := 5

/-- Environment of one power operation: outcomes of the external command
executions it may perform.  `statusOutOn i` / `statusOutOff i` are the
stdout of the `i`-th `"power status"` query inside the power-on
(resp. power-off) polling loop, `none` when the executor raised after its
internal retries.  `corrOn` / `corrOff` are the success flags of the
corrective `"power on"` / `"power off"` commands (failures are caught).
`bootdevOk` is the success flag of `"chassis bootdev pxe"` (failure caught
in `_set_pxe_for_next_boot`).  `maxRetry` is `CONF.ipmi_power_retry`. -/
structure PowerEnv where
  statusOutOn : Nat → Option String
  statusOutOff : Nat → Option String
  corrOn : Nat → Bool
  corrOff : Nat → Bool
  bootdevOk : Bool
  maxRetry : Nat

/-- `IPMI._power_on`: reset `self.retries` to `0`, run the polling loop
with target `"on"` and success state `ACTIVE`. -/
def power_on (env : PowerEnv) : PollResult :=
  pollLoop (statusQuery env.statusOutOn "on") env.corrOn PState.ACTIVE
    env.maxRetry 0 0

/-- `IPMI._power_off`: reset `self.retries` to `0`, run the polling loop
with target `"off"` and success state `DELETED`. -/
def power_off (env : PowerEnv) : PollResult :=
  pollLoop (statusQuery env.statusOutOff "off") env.corrOff PState.DELETED
    env.maxRetry 0 0

/-- Outcome of a public power operation as the caller observes it: either
a returned state (`return self.state`) or a propagating exception. -/
inductive OpResult
  | returns (s : PState)
  | raises
deriving DecidableEq, Repr

/-- How `timer.start(...).wait()` followed by `return self.state` surfaces
a polling run to the caller: the recorded final state on normal completion,
a re-raised exception when the callback raised. -/
def resultOf : PollResult → OpResult
  | PollResult.ok _ _ s => OpResult.returns s
  | PollResult.raised _ _ => OpResult.raises

/-- `IPMI.deactivate_node`: `self._power_off()` then `return self.state`. -/
def deactivate_node (env : PowerEnv) : OpResult :=
  resultOf (power_off env)

/-- `IPMI.reboot_node`: `self._power_off()`, then
`self._set_pxe_for_next_boot()` (failure caught and logged), then
`self._power_on()`, then `return self.state`.  If the power-off loop
raised, the exception propagates before the later steps; otherwise
`self.state` is overwritten by the power-on loop, whatever the power-off
loop recorded. -/
def reboot_node (env : PowerEnv) : OpResult :=
  match power_off env with
  | PollResult.raised _ _ => OpResult.raises
  | PollResult.ok _ _ _ =>
    let _bootdevCaught : Bool := env.bootdevOk
    resultOf (power_on env)

/-- Observable outcome of `IPMI.activate_node`: whether the
already-active warning was logged, whether `_set_pxe_for_next_boot` was
reached, the power-on polling run (when reached), and what the caller
gets. -/
structure ActivateOut where
  warned : Bool
  bootdevAttempted : Bool
  powerOnLoop : Option PollResult
  result : OpResult
deriving DecidableEq, Repr

/-- `IPMI.activate_node`: evaluate
`self._is_power("on") and self.state == states.ACTIVE` (the initial status
query `initialIsOn` is not wrapped in any `try`, so `none` propagates);
warn when the conjunction holds; then unconditionally
`self._set_pxe_for_next_boot()` (failure caught), `self._power_on()`, and
`return self.state`. -/
def activate_node (env : PowerEnv) (initialIsOn : Option Bool)
    (cached : Option PState) : ActivateOut :=
  match initialIsOn with
  | none =>
    { warned := false, bootdevAttempted := false, powerOnLoop := none
      result := OpResult.raises }
  | some b =>
    { warned := b && decide (cached = some PState.ACTIVE)
      bootdevAttempted := true
      powerOnLoop := some (power_on env)
      result := resultOf (power_on env) }

/-- The node record handed to `IPMI.__init__`: each field is `none` when
the corresponding dictionary value is Python `None`. -/
structure NodeRecord where
  id : Option String
  pm_address : Option String
  pm_user : Option String
  pm_password : Option String
  terminal_port : Option Nat
deriving DecidableEq, Repr

/-- A fully constructed IPMI driver: the four required credential fields
are plain strings (never absent), the console port stays optional. -/
structure IPMIDriver where
  node_id : String
  address : String
  user : String
  password : String
  port : Option Nat
deriving DecidableEq, Repr

/-- The only error `IPMI.__init__` raises:
`exception.InvalidParameterValue`. -/
inductive IPMIError
  | invalidParameterValue (msg : String)
deriving DecidableEq, Repr

/-- `IPMI.__init__`: read the five node fields, then check the four
required ones for `None` in source order (id, address, user, password),
raising `InvalidParameterValue` at the first absent one.  The checks test
`is None` only — any present value, an empty string included, passes. -/
def IPMI_init (node : NodeRecord) : Except IPMIError IPMIDriver :=
  match node.id with
  | none =>
    Except.error (IPMIError.invalidParameterValue "Node id not supplied to IPMI")
  | some node_id =>
    match node.pm_address with
    | none =>
      Except.error (IPMIError.invalidParameterValue "Address not supplied to IPMI")
    | some address =>
      match node.pm_user with
      | none =>
        Except.error (IPMIError.invalidParameterValue "User not supplied to IPMI")
      | some user =>
        match node.pm_password with
        | none =>
          Except.error
            (IPMIError.invalidParameterValue "Password not supplied to IPMI")
        | some password =>
          Except.ok
            { node_id := node_id, address := address, user := user
              password := password, port := node.terminal_port }

/-- Filesystem operations performed on the temporary password file.
`mkstemp` is `tempfile.mkstemp()` (which creates the file readable and
writable only by the creating user, mode `0o600`); `fchmod` is
`os.fchmod(fd, stat.S_IRUSR | stat.S_IWUSR)`; `write` is `f.write(password)`;
`deleteIfExists` is `utils.delete_if_exists(path)` (idempotent). -/
inductive FsOp
  | mkstemp (path : String) (mode : Nat)
  | fchmod (path : String) (mode : Nat)
  | write (path : String)
  | deleteIfExists (path : String)
deriving DecidableEq, Repr

/-- Apply one filesystem operation to a path-to-mode map. -/
def applyOp (fs : List (String × Nat)) : FsOp → List (String × Nat)
  | FsOp.mkstemp p m => fs ++ [(p, m)]
  | FsOp.fchmod p m => fs.map fun q => if q.1 = p then (q.1, m) else q
  | FsOp.write _ => fs
  | FsOp.deleteIfExists p => fs.filter fun q => q.1 != p

/-- Run a sequence of filesystem operations from a starting state. -/
def runOps (fs : List (String × Nat)) (ops : List FsOp) : List (String × Nat) :=
  ops.foldl applyOp fs

/-- Permission mode of `p` in the filesystem state, `none` when `p` does
not exist. -/
def fileMode (fs : List (String × Nat)) (p : String) : Option Nat :=
  (fs.find? fun q => q.1 == p).map fun q => q.2

/-- Filesystem trace of `_make_password_file(password)` for the fresh path
`p` returned by `mkstemp`: create (already mode `0o600`), `fchmod` to
`S_IRUSR | S_IWUSR = 0o600`, write the password, return the path. -/
def make_password_file_fs (p : String) : List FsOp :=
  [FsOp.mkstemp p 0o600, FsOp.fchmod p 0o600, FsOp.write p]

/-- `try`/`finally` over (filesystem trace, raised?) pairs: the `finally`
operations run on every exit path, and an exception from the body is
re-raised afterwards. -/
def tryFinallyFs (body : List FsOp × Bool) (finOps : List FsOp) :
    List FsOp × Bool :=
  (body.1 ++ finOps, body.2)

/-- Filesystem trace of `IPMI._exec_ipmitool(command)` restricted to the
password file `p`: `_make_password_file` before the `try`, the guarded
`utils.execute` (no filesystem effect on `p`; `execRaises` tells whether it
raised), and `utils.delete_if_exists(pwfile)` in the `finally`. -/
def exec_ipmitool_fs (p : String) (execRaises : Bool) : List FsOp × Bool :=
  tryFinallyFs (make_password_file_fs p, execRaises) [FsOp.deleteIfExists p]

/-- Filesystem trace of `IPMI.start_console` restricted to the password
file `p`: early return with no filesystem effect when no console port is
configured; otherwise `_make_password_file` inside the `try`, the shell
launch of the console proxy (`execRaises` tells whether `utils.execute`
raised), and `utils.delete_if_exists(pwfile)` in the `finally`. -/
def start_console_fs (port : Option Nat) (p : String) (execRaises : Bool) :
    List FsOp × Bool :=
  match port with
  | none => ([], false)
  | some _ => tryFinallyFs (make_password_file_fs p, execRaises) [FsOp.deleteIfExists p]

/-- Whitespace characters Python `int()` strips from the ends of its
argument (the ASCII ones; exotic unicode spaces are immaterial here). -/
def isPySpace (c : Char) : Bool :=
  c == ' ' || c == '\t' || c == '\n' || c == '\x0b' || c == '\x0c' || c == '\r'

/-- Decimal value of a digit string, most significant first. -/
def digitsToNat (acc : Nat) : List Char → Nat
  | [] => acc
  | c :: cs => digitsToNat (acc * 10 + (c.toNat - '0'.toNat)) cs

/-- Parse a nonempty all-digit character list as a natural number. -/
def parseDigits (cs : List Char) : Option Nat :=
  if cs ≠ [] ∧ cs.all Char.isDigit then some (digitsToNat 0 cs) else none

/-- Python `int(s)` on the pid-file content, as `_get_console_pid` uses
it: strip surrounding whitespace, accept an optional sign followed by at
least one decimal digit, otherwise fail (`ValueError`). -/
def parsePyInt (s : String) : Option Int :=
  let t := ((s.data.dropWhile isPySpace).reverse.dropWhile isPySpace).reverse
  match t with
  | '-' :: rest => (parseDigits rest).map fun n => -(n : Int)
  | '+' :: rest => (parseDigits rest).map fun n => (n : Int)
  | _ => (parseDigits t).map fun n => (n : Int)

/-- `_get_console_pid(node_id)`: `fileContent` is `none` when the pid path
does not exist, `some s` when it exists with content `s`.  Returns the
parsed pid, or `None` with a logged warning when the content does not
parse as an integer.  The second component records whether the warning was
logged. -/
def get_console_pid (fileContent : Option String) : Option Int × Bool :=
  match fileContent with
  | none => (none, false)
  | some s =>
    match parsePyInt s with
    | some n => (some n, false)
    | none => (none, true)

/-- Observable outcome of `IPMI.stop_console`: the pid the `kill` command
was invoked on (`none` when no signal was sent), whether the unparseable
pid warning was logged, whether `utils.delete_if_exists(pid_path)` was
reached, and whether an exception propagated. -/
structure StopOut where
  signaledPid : Option Int
  warned : Bool
  deleted : Bool
  raised : Bool
deriving DecidableEq, Repr

/-- `IPMI.stop_console`: look up the pid via `_get_console_pid`; Python's
`if console_pid:` runs the `kill` only for a pid that is not `None` and
not `0`; `utils.execute('kill', '-TERM', ..., check_exit_code=[0, 99])`
raises when the exit code (`killExit pid`) is neither `0` nor `99`, in
which case the final `utils.delete_if_exists(pid_path)` is never
reached. -/
def stop_console (fileContent : Option String) (killExit : Int → Nat) :
    StopOut :=
  match get_console_pid fileContent with
  | (some pid, warned) =>
    if pid ≠ 0 then
      if killExit pid = 0 ∨ killExit pid = 99 then
        { signaledPid := some pid, warned := warned, deleted := true
          raised := false }
      else
        { signaledPid := some pid, warned := warned, deleted := false
          raised := true }
    else
      { signaledPid := none, warned := warned, deleted := true
        raised := false }
  | (none, warned) =>
    { signaledPid := none, warned := warned, deleted := true
      raised := false }

/-- An always-in-target-state stdout stream for status queries (power on). -/
def outAlwaysOn : Nat → Option String := fun _ => some "Chassis Power is on\n"

/-- An always-in-target-state stdout stream for status queries (power off). -/
def outAlwaysOff : Nat → Option String := fun _ => some "Chassis Power is off\n"

/-- A stdout stream whose output never matches any canonical status line. -/
def outNeverMatches : Nat → Option String := fun _ => some ""

/-- Environment in which no status query ever reports the target state. -/
def envNever : PowerEnv :=
  { statusOutOn := outNeverMatches, statusOutOff := outNeverMatches
    corrOn := fun _ => true, corrOff := fun _ => false
    bootdevOk := true, maxRetry := 1 }

/-- Environment in which every status query reports the target state. -/
def envInState : PowerEnv :=
  { statusOutOn := outAlwaysOn, statusOutOff := outAlwaysOff
    corrOn := fun _ => true, corrOff := fun _ => true
    bootdevOk := true, maxRetry := ipmi_power_retry_default }

/-- When no status query ever reports the target state, the loop runs its
whole budget down and exits with `ERROR`, having issued one corrective
command per non-final iteration. -/
theorem pollLoopAux_never_target (statusIs : Nat → Option Bool)
    (corr : Nat → Bool) (success : PState)
    (h : ∀ i, statusIs i = some false) :
    ∀ remaining retries iters,
      pollLoopAux statusIs corr success remaining retries iters =
        PollResult.ok (retries + remaining) (iters + remaining + 1)
          PState.ERROR := by
  intro remaining
  induction remaining with
  | zero =>
    intro retries iters
    simp [pollLoopAux, h iters]
  | succ n ih =>
    intro retries iters
    simp only [pollLoopAux, h iters, ih (retries + 1) (iters + 1)]
    congr 1 <;> omega

/-- When every status query completes (its executor never raises after
the internal retries), the loop never raises: it records a final state. -/
theorem pollLoopAux_no_raise (statusIs : Nat → Option Bool)
    (corr : Nat → Bool) (success : PState)
    (h : ∀ i, statusIs i ≠ none) :
    ∀ remaining retries iters, ∃ a j s,
      pollLoopAux statusIs corr success remaining retries iters =
        PollResult.ok a j s := by
  intro remaining
  induction remaining with
  | zero =>
    intro retries iters
    cases hs : statusIs iters with
    | none => exact absurd hs (h iters)
    | some b =>
      cases b <;> simp [pollLoopAux, hs]
  | succ n ih =>
    intro retries iters
    cases hs : statusIs iters with
    | none => exact absurd hs (h iters)
    | some b =>
      cases b with
      | false => simpa [pollLoopAux, hs] using ih (retries + 1) (iters + 1)
      | true => simp [pollLoopAux, hs]

/-- A completed run records either the success state or `ERROR`. -/
theorem pollLoopAux_final_state (statusIs : Nat → Option Bool)
    (corr : Nat → Bool) (success : PState) :
    ∀ remaining retries iters a j s,
      pollLoopAux statusIs corr success remaining retries iters =
        PollResult.ok a j s →
      s = success ∨ s = PState.ERROR := by
  intro remaining
  induction remaining with
  | zero =>
    intro retries iters a j s hok
    cases hs : statusIs iters with
    | none => simp [pollLoopAux, hs] at hok
    | some b =>
      cases b <;> simp [pollLoopAux, hs] at hok <;> tauto
  | succ n ih =>
    intro retries iters a j s hok
    cases hs : statusIs iters with
    | none => simp [pollLoopAux, hs] at hok
    | some b =>
      cases b with
      | false =>
        simp only [pollLoopAux, hs] at hok
        exact ih (retries + 1) (iters + 1) a j s hok
      | true => simp [pollLoopAux, hs] at hok; tauto

/-- An `ERROR` exit happens only by exhausting the budget: the final
retry counter is exactly the starting counter plus the whole remaining
budget. -/
theorem pollLoopAux_error_exhausted (statusIs : Nat → Option Bool)
    (corr : Nat → Bool) (success : PState)
    (hs : success ≠ PState.ERROR) :
    ∀ remaining retries iters a j,
      pollLoopAux statusIs corr success remaining retries iters =
        PollResult.ok a j PState.ERROR →
      a = retries + remaining := by
  intro remaining
  induction remaining with
  | zero =>
    intro retries iters a j hok
    cases hq : statusIs iters with
    | none => simp [pollLoopAux, hq] at hok
    | some b =>
      cases b with
      | false => simp [pollLoopAux, hq] at hok; omega
      | true =>
        simp [pollLoopAux, hq] at hok
        exact absurd hok.2.2 hs
  | succ n ih =>
    intro retries iters a j hok
    cases hq : statusIs iters with
    | none => simp [pollLoopAux, hq] at hok
    | some b =>
      cases b with
      | false =>
        simp only [pollLoopAux, hq] at hok
        have := ih (retries + 1) (iters + 1) a j hok
        omega
      | true =>
        simp [pollLoopAux, hq] at hok
        exact absurd hok.2.2 hs

/-- Counter and iteration bounds: starting from `retries` with `remaining`
budget, the run issues at most `retries + remaining` corrective commands
and invokes the callback at most `remaining + 1` more times. -/
theorem pollLoopAux_bounds (statusIs : Nat → Option Bool)
    (corr : Nat → Bool) (success : PState) :
    ∀ remaining retries iters,
      (pollLoopAux statusIs corr success remaining retries iters).attempts ≤
        retries + remaining ∧
      (pollLoopAux statusIs corr success remaining retries iters).iterations ≤
        iters + remaining + 1 := by
  intro remaining
  induction remaining with
  | zero =>
    intro retries iters
    cases hq : statusIs iters with
    | none => simp [pollLoopAux, hq, PollResult.attempts, PollResult.iterations]
    | some b =>
      cases b <;>
        simp [pollLoopAux, hq, PollResult.attempts, PollResult.iterations]
  | succ n ih =>
    intro retries iters
    cases hq : statusIs iters with
    | none =>
      simp [pollLoopAux, hq, PollResult.attempts, PollResult.iterations]
    | some b =>
      cases b with
      | false =>
        simp only [pollLoopAux, hq]
        have := ih (retries + 1) (iters + 1)
        constructor <;> [exact le_trans this.1 (by omega);
          exact le_trans this.2 (by omega)]
      | true =>
        simp [pollLoopAux, hq, PollResult.attempts, PollResult.iterations]

/-- Every run invokes the callback at least once. -/
theorem pollLoopAux_iterations_pos (statusIs : Nat → Option Bool)
    (corr : Nat → Bool) (success : PState) :
    ∀ remaining retries iters,
      iters + 1 ≤
        (pollLoopAux statusIs corr success remaining retries iters).iterations := by
  intro remaining
  induction remaining with
  | zero =>
    intro retries iters
    cases hq : statusIs iters with
    | none => simp [pollLoopAux, hq, PollResult.iterations]
    | some b =>
      cases b <;> simp [pollLoopAux, hq, PollResult.iterations]
  | succ n ih =>
    intro retries iters
    cases hq : statusIs iters with
    | none => simp [pollLoopAux, hq, PollResult.iterations]
    | some b =>
      cases b with
      | false =>
        simp only [pollLoopAux, hq]
        have := ih (retries + 1) (iters + 1)
        omega
      | true => simp [pollLoopAux, hq, PollResult.iterations]

/-- C1: for every configured retry budget `n ≥ 0` (`CONF.ipmi_power_retry`),
if the status query never reports the target state, the power-on and
power-off polling operations terminate after exactly `n + 1`
corrective-command attempts (the final retry counter) and record `ERROR`,
whatever the corrective commands' outcomes. -/
theorem power_polling_exhausts_error (env : PowerEnv)
    (hOn : ∀ i, statusQuery env.statusOutOn "on" i = some false)
    (hOff : ∀ i, statusQuery env.statusOutOff "off" i = some false) :
    power_on env =
      PollResult.ok (env.maxRetry + 1) (env.maxRetry + 2) PState.ERROR ∧
    power_off env =
      PollResult.ok (env.maxRetry + 1) (env.maxRetry + 2) PState.ERROR := by
  constructor
  · have h : power_on env =
        PollResult.ok (0 + (env.maxRetry + 1 - 0)) (0 + (env.maxRetry + 1 - 0) + 1)
          PState.ERROR :=
      pollLoopAux_never_target (statusQuery env.statusOutOn "on") env.corrOn
        PState.ACTIVE hOn (env.maxRetry + 1 - 0) 0 0
    rw [h]
    norm_num
  · have h : power_off env =
        PollResult.ok (0 + (env.maxRetry + 1 - 0)) (0 + (env.maxRetry + 1 - 0) + 1)
          PState.ERROR :=
      pollLoopAux_never_target (statusQuery env.statusOutOff "off") env.corrOff
        PState.DELETED hOff (env.maxRetry + 1 - 0) 0 0
    rw [h]
    norm_num

/-- C1 witness: with retry budget `1` and a status output that never
matches any canonical line, both polling operations issue exactly `2`
corrective attempts and record `ERROR`. -/
theorem power_polling_exhausts_error_witness :
    power_on envNever = PollResult.ok 2 3 PState.ERROR ∧
    power_off envNever = PollResult.ok 2 3 PState.ERROR :=
  power_polling_exhausts_error envNever (fun _ => rfl) (fun _ => rfl)

/-- C7: if the status query reports the target state on the very first
polling iteration, zero corrective commands are issued and the operation
records the success state (`ACTIVE` for power-on, `DELETED` for power-off)
and returns after that single iteration. -/
theorem power_first_check_no_corrective (env : PowerEnv)
    (hOn : statusQuery env.statusOutOn "on" 0 = some true)
    (hOff : statusQuery env.statusOutOff "off" 0 = some true) :
    power_on env = PollResult.ok 0 1 PState.ACTIVE ∧
    power_off env = PollResult.ok 0 1 PState.DELETED := by
  constructor
  · show pollLoopAux _ _ _ (env.maxRetry + 1 - 0) 0 0 = _
    simp only [Nat.sub_zero]
    simp [pollLoopAux, hOn]
  · show pollLoopAux _ _ _ (env.maxRetry + 1 - 0) 0 0 = _
    simp only [Nat.sub_zero]
    simp [pollLoopAux, hOff]

/-- C7 witness: with stdout equal to the canonical line from the first
query on, both polling operations exit on iteration one with zero
corrective attempts and the respective success state. -/
theorem power_first_check_no_corrective_witness :
    power_on envInState = PollResult.ok 0 1 PState.ACTIVE ∧
    power_off envInState = PollResult.ok 0 1 PState.DELETED :=
  power_first_check_no_corrective envInState (by decide) (by decide)

/-- C8: the polling state machine always terminates (it is a total
function of its environment); the retry counter starts at `0`, is only
ever incremented, and the loop exits once it exceeds the budget, so for
budget `n` a run issues at most `n + 1` corrective attempts and executes
at most `n + 2` iterations, for every outcome of the status queries and
corrective commands. -/
theorem poll_loop_terminates_bounded (statusIs : Nat → Option Bool)
    (corr : Nat → Bool) (success : PState) (maxRetry : Nat) :
    (pollLoop statusIs corr success maxRetry 0 0).attempts ≤ maxRetry + 1 ∧
    (pollLoop statusIs corr success maxRetry 0 0).iterations ≤ maxRetry + 2 := by
  have h := pollLoopAux_bounds statusIs corr success (maxRetry + 1 - 0) 0 0
  exact ⟨le_trans h.1 (by omega), le_trans h.2 (by omega)⟩

/-- C6: calling `activate_node` when the node is already reporting
power-on and the cached state is `ACTIVE` does not short-circuit: the
warning is logged, `_set_pxe_for_next_boot` still runs, and a full
power-on polling cycle (at least one iteration) is performed, the returned
state being the one the polling cycle records. -/
theorem activate_node_no_short_circuit (env : PowerEnv) :
    activate_node env (some true) (some PState.ACTIVE) =
      { warned := true, bootdevAttempted := true
        powerOnLoop := some (power_on env)
        result := resultOf (power_on env) } ∧
    1 ≤ (power_on env).iterations := by
  refine ⟨rfl, ?_⟩
  have h := pollLoopAux_iterations_pos (statusQuery env.statusOutOn "on")
    env.corrOn PState.ACTIVE (env.maxRetry + 1 - 0) 0 0
  simpa using h

/-- C2: provided no command execution fails persistently (ordinary
transient failures are absorbed by the executor's internal three attempts,
so every status query completes with an answer), each power operation
returns a definite terminal state — `ACTIVE` or `ERROR` for
`activate_node` and `reboot_node`, `DELETED` or `ERROR` for
`deactivate_node` — and never raises, for every outcome of the corrective
commands and of the set-next-boot command (those failures are caught
during polling); and a final `ERROR` arises only from retry exhaustion,
the full budget plus one attempts having been issued. -/
theorem power_ops_return_terminal (env : PowerEnv) (b : Bool)
    (cached : Option PState)
    (hOn : ∀ i, env.statusOutOn i ≠ none)
    (hOff : ∀ i, env.statusOutOff i ≠ none) :
    (∃ s, (activate_node env (some b) cached).result = OpResult.returns s ∧
       (s = PState.ACTIVE ∨ s = PState.ERROR)) ∧
    (∃ s, reboot_node env = OpResult.returns s ∧
       (s = PState.ACTIVE ∨ s = PState.ERROR)) ∧
    (∃ s, deactivate_node env = OpResult.returns s ∧
       (s = PState.DELETED ∨ s = PState.ERROR)) ∧
    (∀ a j, power_on env = PollResult.ok a j PState.ERROR →
       a = env.maxRetry + 1) ∧
    (∀ a j, power_off env = PollResult.ok a j PState.ERROR →
       a = env.maxRetry + 1) := by
  have hOn' : ∀ i, statusQuery env.statusOutOn "on" i ≠ none := by
    intro i h
    cases hx : env.statusOutOn i with
    | none => exact hOn i hx
    | some o => simp [statusQuery, hx] at h
  have hOff' : ∀ i, statusQuery env.statusOutOff "off" i ≠ none := by
    intro i h
    cases hx : env.statusOutOff i with
    | none => exact hOff i hx
    | some o => simp [statusQuery, hx] at h
  obtain ⟨a1, j1, s1, hok1⟩ :=
    pollLoopAux_no_raise (statusQuery env.statusOutOn "on") env.corrOn
      PState.ACTIVE hOn' (env.maxRetry + 1 - 0) 0 0
  obtain ⟨a2, j2, s2, hok2⟩ :=
    pollLoopAux_no_raise (statusQuery env.statusOutOff "off") env.corrOff
      PState.DELETED hOff' (env.maxRetry + 1 - 0) 0 0
  have hon : power_on env = PollResult.ok a1 j1 s1 := hok1
  have hoff : power_off env = PollResult.ok a2 j2 s2 := hok2
  have hs1 := pollLoopAux_final_state (statusQuery env.statusOutOn "on")
    env.corrOn PState.ACTIVE (env.maxRetry + 1 - 0) 0 0 a1 j1 s1 hok1
  have hs2 := pollLoopAux_final_state (statusQuery env.statusOutOff "off")
    env.corrOff PState.DELETED (env.maxRetry + 1 - 0) 0 0 a2 j2 s2 hok2
  refine ⟨⟨s1, ?_, hs1⟩, ⟨s1, ?_, hs1⟩, ⟨s2, ?_, hs2⟩, ?_, ?_⟩
  · simp [activate_node, hon, resultOf]
  · simp [reboot_node, hon, hoff, resultOf]
  · simp [deactivate_node, hoff, resultOf]
  · intro a j hErr
    have := pollLoopAux_error_exhausted (statusQuery env.statusOutOn "on")
      env.corrOn PState.ACTIVE (by decide) (env.maxRetry + 1 - 0) 0 0 a j hErr
    omega
  · intro a j hErr
    have := pollLoopAux_error_exhausted (statusQuery env.statusOutOff "off")
      env.corrOff PState.DELETED (by decide) (env.maxRetry + 1 - 0) 0 0 a j hErr
    omega

/-- C2 witness: with every status query answering the canonical target
line, all three operations return their success state and the exhaustion
implications hold vacuously or exactly. -/
theorem power_ops_return_terminal_witness :
    (∃ s, (activate_node envInState (some false) none).result =
       OpResult.returns s ∧ (s = PState.ACTIVE ∨ s = PState.ERROR)) ∧
    (∃ s, reboot_node envInState = OpResult.returns s ∧
       (s = PState.ACTIVE ∨ s = PState.ERROR)) ∧
    (∃ s, deactivate_node envInState = OpResult.returns s ∧
       (s = PState.DELETED ∨ s = PState.ERROR)) ∧
    (∀ a j, power_on envInState = PollResult.ok a j PState.ERROR →
       a = envInState.maxRetry + 1) ∧
    (∀ a j, power_off envInState = PollResult.ok a j PState.ERROR →
       a = envInState.maxRetry + 1) :=
  power_ops_return_terminal envInState false none (fun _ => by simp [envInState, outAlwaysOn])
    (fun _ => by simp [envInState, outAlwaysOff])

/-- C4: the status-query primitive returns true if and only if the status
command's stdout equals exactly the canonical line
`"Chassis Power is on\n"` (respectively `"Chassis Power is off\n"`) for
the expected state; any other output — extra whitespace or unexpected
text included — yields false. -/
theorem is_power_exact (out : String) :
    (is_power out "on" = true ↔ out = "Chassis Power is on\n") ∧
    (is_power out "off" = true ↔ out = "Chassis Power is off\n") := by
  have h1 : "Chassis Power is " ++ "on" ++ "\n" = "Chassis Power is on\n" := rfl
  have h2 : "Chassis Power is " ++ "off" ++ "\n" = "Chassis Power is off\n" := rfl
  constructor
  · rw [is_power, h1]; exact beq_iff_eq
  · rw [is_power, h2]; exact beq_iff_eq

/-- C4 witness: the canonical line is accepted, and a line with a trailing
extra newline is rejected. -/
theorem is_power_exact_witness :
    is_power "Chassis Power is on\n" "on" = true ∧
    is_power "Chassis Power is on\n\n" "on" ≠ true :=
  ⟨(is_power_exact "Chassis Power is on\n").1.mpr rfl,
   fun h => by
     have := (is_power_exact "Chassis Power is on\n\n").1.mp h
     simp at this⟩

/-- C5 counterexample: the constructor checks the required fields against
`None` only, so a node whose management address, username and secret are
present but empty strings constructs a controller — "each required field
being non-empty" does not hold of constructed controllers. -/
theorem ipmi_init_accepts_empty_strings :
    IPMI_init { id := some "1", pm_address := some "", pm_user := some ""
                pm_password := some "", terminal_port := none } =
      Except.ok { node_id := "1", address := "", user := "", password := ""
                  port := none } := rfl

/-- C5 (amended): constructing a controller fails immediately with a
parameter-validation error exactly when one of the four required
credential fields is absent (`None`); presence only is checked, not
non-emptiness.  On success the controller carries exactly the supplied
field values (no partially-valid controller exists), and every
construction failure is an `InvalidParameterValue` error. -/
theorem ipmi_init_requires_presence (node : NodeRecord) :
    ((∃ d, IPMI_init node = Except.ok d) ↔
      node.id ≠ none ∧ node.pm_address ≠ none ∧ node.pm_user ≠ none ∧
        node.pm_password ≠ none) ∧
    (∀ d, IPMI_init node = Except.ok d →
      node.id = some d.node_id ∧ node.pm_address = some d.address ∧
      node.pm_user = some d.user ∧ node.pm_password = some d.password ∧
      node.terminal_port = d.port) ∧
    (∀ e, IPMI_init node = Except.error e →
      ∃ msg, e = IPMIError.invalidParameterValue msg) := by
  obtain ⟨i, a, u, p, t⟩ := node
  cases i <;> cases a <;> cases u <;> cases p <;>
    simp [IPMI_init]

/-- C5 witness: a node with all four fields present constructs a
controller; a node lacking the username fails with an
`InvalidParameterValue` error. -/
theorem ipmi_init_requires_presence_witness :
    (∃ d, IPMI_init
        ⟨some "node1", some "10.0.0.2", some "admin", some "secret", some 8000⟩ =
      Except.ok d) ∧
    (∃ msg, IPMIError.invalidParameterValue "User not supplied to IPMI" =
        IPMIError.invalidParameterValue msg) :=
  ⟨(ipmi_init_requires_presence
      ⟨some "node1", some "10.0.0.2", some "admin", some "secret", some 8000⟩).1.mpr
      (by simp),
   (ipmi_init_requires_presence
      ⟨some "node1", some "10.0.0.2", none, some "secret", some 8000⟩).2.2
      (IPMIError.invalidParameterValue "User not supplied to IPMI") rfl⟩

/-- C3: for every invocation that creates the password file (every
`_exec_ipmitool` call, and `start_console` with a configured port), the
file's permission bits are owner-read/write only (`0o600`) at every point
after creation and before the password is written (after the `mkstemp`
step and after the `fchmod` step), and the file does not exist once the
invocation completes — whether the wrapped command execution raised or
not, the exception being re-raised after the `finally` deletion;
`start_console` without a configured port creates no file at all. -/
theorem secret_file_mode_and_cleanup (p : String) (execRaises : Bool)
    (port : Nat) :
    (fileMode (runOps [] ((exec_ipmitool_fs p execRaises).1.take 1)) p =
      some 0o600) ∧
    (fileMode (runOps [] ((exec_ipmitool_fs p execRaises).1.take 2)) p =
      some 0o600) ∧
    (fileMode (runOps [] (exec_ipmitool_fs p execRaises).1) p = none) ∧
    ((exec_ipmitool_fs p execRaises).2 = execRaises) ∧
    (fileMode (runOps [] ((start_console_fs (some port) p execRaises).1.take 1)) p =
      some 0o600) ∧
    (fileMode (runOps [] ((start_console_fs (some port) p execRaises).1.take 2)) p =
      some 0o600) ∧
    (fileMode (runOps [] (start_console_fs (some port) p execRaises).1) p = none) ∧
    ((start_console_fs (some port) p execRaises).2 = execRaises) ∧
    (start_console_fs none p execRaises = ([], false)) := by
  refine ⟨?_, ?_, ?_, rfl, ?_, ?_, ?_, rfl, rfl⟩ <;>
    simp [exec_ipmitool_fs, start_console_fs, tryFinallyFs,
      make_password_file_fs, runOps, applyOp, fileMode, List.find?]

/-- C10: for every pid-record content that does not parse as an integer,
or parses as the integer `0` (falsy in the `if console_pid:` test),
`stop_console` behaves as if the record were missing: it sends no
termination signal, raises no error (a warning is logged exactly for
unparseable content), and still reaches the pid-record deletion. -/
theorem stop_console_bad_pid_no_signal (s : String) (killExit : Int → Nat)
    (h : parsePyInt s = none ∨ parsePyInt s = some 0) :
    stop_console (some s) killExit =
      { signaledPid := none, warned := (parsePyInt s).isNone, deleted := true
        raised := false } := by
  cases h with
  | inl hp => simp [stop_console, get_console_pid, hp]
  | inr hp => simp [stop_console, get_console_pid, hp]

/-- C10 witness: unparseable content warns, sends no signal and deletes;
content `"0"` sends no signal, does not warn, and deletes. -/
theorem stop_console_bad_pid_no_signal_witness :
    stop_console (some "junk") (fun _ => 1) =
      { signaledPid := none, warned := true, deleted := true
        raised := false } ∧
    stop_console (some "0") (fun _ => 1) =
      { signaledPid := none, warned := false, deleted := true
        raised := false } :=
  ⟨stop_console_bad_pid_no_signal "junk" (fun _ => 1) (Or.inl (by decide)),
   stop_console_bad_pid_no_signal "0" (fun _ => 1) (Or.inr (by decide))⟩

/-- C9 counterexample: with pid-record content `"123"` and a termination
command exiting with code `1` (not in the accepted set `{0, 99}`), the
executor raises and the pid-record deletion step is never reached — so
"the pid-record file is deleted unconditionally after the signal step" is
false as stated. -/
theorem stop_console_kill_failure_skips_delete :
    stop_console (some "123") (fun _ => 1) =
      { signaledPid := some 123, warned := false, deleted := false
        raised := true } := by
  decide

/-- C9 (amended): `stop_console` with no pid record sends no signal,
raises no error, and still attempts the pid-record deletion (a no-op);
when a (nonzero) pid is found and the termination command completes with
exit code `0` or `99`, the pid record is deleted after the signal step;
when the termination command exits with any other code, the executor
error propagates and the deletion is skipped. -/
theorem stop_console_deletion_behavior (fc : Option String)
    (killExit : Int → Nat) :
    (stop_console none killExit =
      { signaledPid := none, warned := false, deleted := true
        raised := false }) ∧
    (∀ pid, (get_console_pid fc).1 = some pid → pid ≠ 0 →
      ((killExit pid = 0 ∨ killExit pid = 99) →
        stop_console fc killExit =
          { signaledPid := some pid, warned := false, deleted := true
            raised := false }) ∧
      (¬(killExit pid = 0 ∨ killExit pid = 99) →
        stop_console fc killExit =
          { signaledPid := some pid, warned := false, deleted := false
            raised := true })) := by
  refine ⟨rfl, ?_⟩
  intro pid hpid hne
  cases fc with
  | none => simp [get_console_pid] at hpid
  | some s =>
    cases hp : parsePyInt s with
    | none => simp [get_console_pid, hp] at hpid
    | some n =>
      simp [get_console_pid, hp] at hpid
      subst hpid
      constructor
      · intro hk
        simp [stop_console, get_console_pid, hp, hne, hk]
      · intro hk
        simp [stop_console, get_console_pid, hp, hne, hk]

/-- C9 witness: no pid record yields no signal, no error and a deletion
attempt; pid `123` with a termination command exiting `99` is signaled and
the record is deleted afterwards. -/
theorem stop_console_deletion_behavior_witness :
    (stop_console none (fun _ => 99) =
      { signaledPid := none, warned := false, deleted := true
        raised := false }) ∧
    stop_console (some "123") (fun _ => 99) =
      { signaledPid := some 123, warned := false, deleted := true
        raised := false } :=
  ⟨(stop_console_deletion_behavior none (fun _ => 99)).1,
   (((stop_console_deletion_behavior (some "123") (fun _ => 99)).2 123
      (by decide) (by decide)).1 (Or.inr (by decide)))⟩
